import Mathlib

/-!
A shallow embedding of the request-handler logic of a small serverless
data-ingestion pipeline, together with proofs about its behaviour.

The system has three components:

* a token authorizer (authorizer.py) that validates a bearer JWT and
  produces an IAM policy with an identity context;
* an ingest handler (ingest_handler.py) that parses a JSON body, validates
  required fields and writes a record to a key-value store;
* a weekly summary handler (weekly_summary_handler.py) that scans the
  store over a trailing 7-day window, tallies per-user and per-event-type
  counts, ranks the top entries and uploads a report to an object store.

External collaborators (the JWT library, the JSON parser, the stores, the
clock and UUID generator) are modelled as explicit inputs: a raw string is
represented by what the external parser does to it, and store calls are
recorded in the output so that theorems can speak about which writes were
attempted and which were persisted.
-/

/-! ### Token authorizer (authorizer.py) -/

/-- The claim set carried by a decoded JWT payload.  Claims the handler
reads: sub, email, scope, exp, iat. -/
structure Claims where
  sub : Option String
  email : Option String
  scope : Option String
  exp : Option Int
  iat : Option Int
deriving DecidableEq, Repr

/-- A bearer token as seen by the verifier: its claim set plus whether its
HS256 signature verifies against the configured secret. -/
structure Jwt where
  sigValid : Bool
  claims : Claims
deriving DecidableEq, Repr

/-- Failure modes of the external JWT decode: jwt.ExpiredSignatureError
and jwt.InvalidTokenError (covering bad signature and malformed claims). -/
inductive JwtError where
  | expired
  | invalid
deriving DecidableEq, Repr

/-- Models jwt.decode(token, secret, algorithms=[HS256],
options=\x7bverify_exp: True, verify_iat: True\x7d): a bad signature raises
InvalidTokenError; an exp claim not in the future raises
ExpiredSignatureError; verify_iat only type-checks the iat claim, which the
embedding enforces by construction.  On success the payload is returned. -/
def jwtDecode (t : Jwt) (now : Int) : Except JwtError Claims :=
  if !t.sigValid then .error .invalid
  else
    match t.claims.exp with
    | some e => if e ≤ now then .error .expired else .ok t.claims
    | none => .ok t.claims

/-- The error taxonomy used to describe verifier outcomes: a distinct
malformed-credential error versus the undifferentiated unauthorized
rejection. -/
inductive AuthError where
  | MalformedCredential
  | Unauthorized
deriving DecidableEq, Repr

/-- The authorizationToken header string, represented by its shape:
bearer t stands for the string "Bearer " followed by the encoding of t;
noBearer s stands for a string s that does not start with "Bearer ". -/
inductive AuthHeader where
  | bearer (t : Jwt)
  | noBearer (s : String)
deriving DecidableEq, Repr

/-- The identity context attached to the policy and passed downstream via
event.requestContext.authorizer. -/
structure PolicyCtx where
  userId : String
  email : String
  scope : String
deriving DecidableEq, Repr

/-- The IAM policy the authorizer returns.  The constant policy-document
skeleton (Version 2012-10-17, Action execute-api:Invoke) is folded into
the effect and resource fields. -/
structure Policy where
  principalId : String
  effect : String
  resource : String
  context : Option PolicyCtx
deriving DecidableEq, Repr

/-- generate_policy(principal_id, effect, resource, context_data): builds
the policy; when context_data is given, the context fields default to the
empty string for absent claims. -/
def generatePolicy (principalId effect resource : String)
    (contextData : Option Claims) : Policy :=
  { principalId := principalId
    effect := effect
    resource := resource
    context := contextData.map fun c =>
      { userId := c.sub.getD ""
        email := c.email.getD ""
        scope := c.scope.getD "" } }

/-- handler(event, context) of authorizer.py.  A header without the
"Bearer " lead-in raises ValueError inside the try block; that, like
every decode failure, is caught and re-raised as Exception(Unauthorized).
On success an Allow policy for the sub claim (default "unknown") is
returned, with the payload as context data. -/
def authHandler (header : AuthHeader) (now : Int) (methodArn : String) :
    Except AuthError Policy :=
  match header with
  | .noBearer _ => .error .Unauthorized
  | .bearer t =>
    match jwtDecode t now with
    | .error _ => .error .Unauthorized
    | .ok payload =>
      .ok (generatePolicy (payload.sub.getD "unknown") "Allow" methodArn
        (some payload))

/-! ### Ingest handler (ingest_handler.py) -/

/-- A JSON value, as produced by json.loads. -/
inductive JVal where
  | jstr (s : String)
  | jnum (n : Int)
  | jbool (b : Bool)
  | jnull
  | jarr (xs : List JVal)
  | jobj (fields : List (String × JVal))

/-- A JSON document (top-level object): an ordered association list of
fields. -/
abbrev Doc := List (String × JVal)

/-- dict.get(k) on a parsed JSON object: the value at the first matching
key, if any. -/
def docGet (d : Doc) (k : String) : Option JVal :=
  (d.find? (fun p => p.1 == k)).map (·.2)

/-- The authorizer context delivered in event.requestContext.authorizer;
each field may be absent. -/
structure AuthCtx where
  userId : Option String
  email : Option String

/-- The request body string, represented by what json.loads does to it:
ok doc for a string parsing to the object doc, malformed for a string
raising JSONDecodeError. -/
inductive ParsedBody where
  | ok (doc : Doc)
  | malformed

/-- The API Gateway proxy event as read by the ingest handler: the
authorizer context (absent when the requestContext or authorizer key is
missing) and the body (none when the body key is absent, in which case the
code substitutes the string of an empty object, which parses to []). -/
structure IngestEvent where
  authorizer : Option AuthCtx
  body : Option ParsedBody

/-- The item written to the record store by table.put_item. -/
structure DbItem where
  id : String
  timestamp : Int
  userId : JVal
  eventType : JVal
  data : JVal
  createdAt : String
  authenticatedUser : String
  userEmail : String

/-- The constant CORS headers attached by create_response. -/
def corsHeaders : List (String × String) :=
  [("Content-Type", "application/json"),
   ("Access-Control-Allow-Origin", "*"),
   ("Access-Control-Allow-Headers", "Content-Type,Authorization,X-Api-Key"),
   ("Access-Control-Allow-Methods", "POST,OPTIONS")]

/-- An API Gateway proxy response; the body is the JSON document that
create_response serializes. -/
structure Resp where
  statusCode : Nat
  headers : List (String × String)
  body : Doc

/-- create_response(status_code, body). -/
def createResponse (statusCode : Nat) (body : Doc) : Resp :=
  { statusCode := statusCode, headers := corsHeaders, body := body }

/-- The observable outcome of one ingest invocation: the HTTP response and
the list of put_item calls issued (in order). -/
structure IngestOutcome where
  response : Resp
  puts : List DbItem

/-- handler(event, context) of ingest_handler.py.  Environment inputs:
itemId is the fresh uuid4 string, ts the current epoch second, createdAt
the current ISO-8601 time, and putErr the outcome of table.put_item
(none for success, some msg for a ClientError with message msg). -/
def ingestHandler (event : IngestEvent) (itemId : String) (ts : Int)
    (createdAt : String) (putErr : Option String) : IngestOutcome :=
  let userIdFromToken := (event.authorizer.bind AuthCtx.userId).getD "unknown"
  let userEmail := (event.authorizer.bind AuthCtx.email).getD ""
  match event.body.getD (.ok []) with
  | .malformed =>
    { response := createResponse 400 [("error", .jstr "Invalid JSON format")]
      puts := [] }
  | .ok body =>
    if (docGet body "userId").isNone || (docGet body "data").isNone then
      { response := createResponse 400
          [("error", .jstr "Missing required fields: userId, data")]
        puts := [] }
    else
      let userId := (docGet body "userId").getD .jnull
      let eventType := (docGet body "eventType").getD (.jstr "unknown")
      let dataPayload := (docGet body "data").getD (.jobj [])
      let item : DbItem :=
        { id := itemId
          timestamp := ts
          userId := userId
          eventType := eventType
          data := dataPayload
          createdAt := createdAt
          authenticatedUser := userIdFromToken
          userEmail := userEmail }
      match putErr with
      | some msg =>
        { response := createResponse 500
            [("error", .jstr "Database error"), ("details", .jstr msg)]
          puts := [item] }
      | none =>
        { response := createResponse 200
            [("message", .jstr "Data ingested successfully"),
             ("id", .jstr itemId), ("timestamp", .jnum ts)]
          puts := [item] }

/-! ### Weekly summary handler (weekly_summary_handler.py) -/

/-- A record as returned by the table scan under the projection
userId, eventType, timestamp; either attribute may be absent. -/
structure ScanItem where
  userId : Option String
  eventType : Option String
  ts : Int
deriving DecidableEq, Repr

/-- A Python dict used as a counter: an insertion-ordered association
list from key to count. -/
abbrev Stats := List (String × Nat)

/-- stats.get(k, 0). -/
def statsGet (d : Stats) (k : String) : Nat :=
  ((d.find? (fun p => p.1 == k)).map (·.2)).getD 0

/-- stats[k] = v: update in place when the key is present (keeping its
insertion position), append otherwise, as a Python dict does. -/
def statsSet (d : Stats) (k : String) (v : Nat) : Stats :=
  match d with
  | [] => [(k, v)]
  | (k0, v0) :: rest =>
    if k0 == k then (k0, v) :: rest else (k0, v0) :: statsSet rest k v

/-- stats[k] = stats.get(k, 0) + 1. -/
def statsBump (d : Stats) (k : String) : Stats :=
  statsSet d k (statsGet d k + 1)

/-- Python truthiness of an optional string: None and the empty string
are falsy, as tested by the statement if user_id. -/
def pyTruthy : Option String → Bool
  | none => false
  | some s => !s.isEmpty

/-- One iteration of the loop body of process_items: count the record by
user when its userId is truthy, and by event type with the default
"unknown" for an absent eventType attribute. -/
def processItem : Stats × Stats → ScanItem → Stats × Stats
  | (u, e), i =>
    (if pyTruthy i.userId then statsBump u (i.userId.getD "") else u,
     statsBump e (i.eventType.getD "unknown"))

/-- process_items(items, user_stats, event_stats). -/
def processItems (items : List ScanItem) (u e : Stats) : Stats × Stats :=
  items.foldl processItem (u, e)

/-- The server-side scan filter: attribute_exists(userId) AND
timestamp BETWEEN start AND end (BETWEEN is inclusive at both ends). -/
def scanFilter (s e : Int) (i : ScanItem) : Bool :=
  i.userId.isSome && decide (s ≤ i.ts) && decide (i.ts ≤ e)

/-- All records the paginated scan returns to the handler, in order:
each page of the underlying store, filtered server-side. -/
def returnedItems (pages : List (List ScanItem)) (s e : Int) :
    List ScanItem :=
  (pages.map (fun page => page.filter (scanFilter s e))).flatten

/-- One scan round trip of scan_table: the store serves the next page,
filtered server-side; the handler processes the returned batch and adds
its length to the running total. -/
def scanStep (s e : Int) (acc : Nat × Stats × Stats)
    (page : List ScanItem) : Nat × Stats × Stats :=
  let items := page.filter (scanFilter s e)
  let stats := processItems items acc.2.1 acc.2.2
  (acc.1 + items.length, stats.1, stats.2)

/-- scan_table(start_timestamp, end_timestamp): drain every page of the
scan, processing each returned batch and adding its length to the running
total.  The store content is the list of pages the scan walks. -/
def scanTable (pages : List (List ScanItem)) (s e : Int) :
    Nat × Stats × Stats :=
  pages.foldl (scanStep s e) (0, [], [])

/-- Stable insertion into a list kept in descending count order: the new
element goes before the first strictly smaller count, after all counts
greater than or equal to its own. -/
def insertByCountDesc (x : String × Nat) :
    List (String × Nat) → List (String × Nat)
  | [] => [x]
  | y :: ys =>
    if y.2 ≤ x.2 then x :: y :: ys else y :: insertByCountDesc x ys

/-- Models sorted(stats.items(), key=count, reverse=True): Python sorted
is stable, so this is the stable sort of the dict entries (in insertion
order) by count descending.  Implemented as a stable insertion sort,
which agrees with every stable sort on this comparison. -/
def sortByCountDesc : List (String × Nat) → List (String × Nat)
  | [] => []
  | x :: xs => insertByCountDesc x (sortByCountDesc xs)

/-- get_top_items(stats_dict, limit): the first limit entries of the
stable descending sort, each rendered as a name/count pair. -/
def getTopItems (stats : Stats) (limit : Nat) : List (String × Nat) :=
  (sortByCountDesc stats).take limit

/-- The summary report assembled by the handler.  The ISO-formatted
generated_at and period fields are derived from the same clock value by
the external datetime formatter and are kept out of the numeric model. -/
structure Summary where
  totalItems : Nat
  uniqueUsers : Nat
  uniqueEventTypes : Nat
  topUsers : List (String × Nat)
  topEventTypes : List (String × Nat)
deriving DecidableEq, Repr

/-- One s3.put_object call: the derived key and the report it carries. -/
structure S3Put where
  key : String
  summary : Summary
deriving DecidableEq, Repr

/-- window_start = window_end - 7 days, in epoch seconds.  In the source
both ends are truncated to whole seconds from the same clock reading, so
the difference is exactly 7 * 86400. -/
def weeklyWindowStart (endTs : Int) : Int := endTs - 7 * 86400

/-- The observable outcome of one aggregator run: the status code of the
returned execution summary, the put_object calls attempted, and the
objects actually persisted. -/
structure WeeklyOutcome where
  statusCode : Nat
  s3Attempts : List S3Put
  s3Persisted : List S3Put
deriving DecidableEq, Repr

/-- handler(event, context) of weekly_summary_handler.py.  Environment
inputs: endTs is the truncated utcnow reading, dateStr its YYYY-MM-DD
rendering, scanResult the store pages or a ClientError raised during the
scan, s3ok the outcome of put_object.  A scan ClientError propagates to
the outer handler, which returns status 500 before any upload is
attempted; an upload ClientError likewise yields 500, with nothing
persisted. -/
def weeklySummaryHandler (endTs : Int) (dateStr : String)
    (scanResult : Except Unit (List (List ScanItem))) (s3ok : Bool) :
    WeeklyOutcome :=
  match scanResult with
  | .error _ => { statusCode := 500, s3Attempts := [], s3Persisted := [] }
  | .ok pages =>
    let startTs := weeklyWindowStart endTs
    let scanned := scanTable pages startTs endTs
    let summary : Summary :=
      { totalItems := scanned.1
        uniqueUsers := scanned.2.1.length
        uniqueEventTypes := scanned.2.2.length
        topUsers := getTopItems scanned.2.1 10
        topEventTypes := getTopItems scanned.2.2 10 }
    let put : S3Put :=
      { key := "summaries/weekly-summary-" ++ dateStr ++ ".json"
        summary := summary }
    if s3ok then
      { statusCode := 200, s3Attempts := [put], s3Persisted := [put] }
    else
      { statusCode := 500, s3Attempts := [put], s3Persisted := [] }

/-! ### Theorems about the token authorizer -/

/-- C1 counterexample: the header "Basic abc", which does not begin with
"Bearer ", is rejected by the authorizer with the same undifferentiated
Unauthorized outcome, not with a distinct MalformedCredential error. -/
theorem C1_counterexample :
    authHandler (.noBearer "Basic abc") 0 "arn" = .error .Unauthorized ∧
    authHandler (.noBearer "Basic abc") 0 "arn" ≠
      .error .MalformedCredential := by
  refine ⟨rfl, ?_⟩
  intro h
  exact absurd (Except.error.inj h) (by decide)

/-- C1 (amended): for every authorization header string that does not
begin with the literal "Bearer ", the authorizer fails with the same
undifferentiated Unauthorized outcome used for signature and expiry
failures; no distinct MalformedCredential error is surfaced. -/
theorem C1_no_bearer_unauthorized :
    ∀ (s : String) (now : Int) (arn : String),
      authHandler (.noBearer s) now arn = .error .Unauthorized := by
  intro s now arn
  rfl

/-- C8: a token whose exp claim lies strictly in the past is rejected
with Unauthorized, and every failing outcome of the authorizer, whatever
its cause, is the single Unauthorized error: no distinction between
expiry, bad signature and malformed credentials crosses the boundary. -/
theorem C8_expired_token_unauthorized :
    (∀ (t : Jwt) (now : Int) (arn : String) (e : Int),
      t.claims.exp = some e → e < now →
      authHandler (.bearer t) now arn = .error .Unauthorized) ∧
    (∀ (h : AuthHeader) (now : Int) (arn : String) (err : AuthError),
      authHandler h now arn = .error err → err = .Unauthorized) := by
  constructor
  · intro t now arn e hexp hlt
    cases hsig : t.sigValid <;>
      simp [authHandler, jwtDecode, hsig, hexp, le_of_lt hlt]
  · intro h now arn err heq
    cases h with
    | noBearer s =>
      simpa [authHandler, eq_comm] using heq
    | bearer t =>
      cases hd : jwtDecode t now <;> simp [authHandler, hd, eq_comm] at heq
      exact heq

/-- C8 witness: a concrete token with valid signature but exp = 5,
verified at now = 10, is rejected with Unauthorized. -/
theorem C8_expired_token_unauthorized_witness :
    authHandler
      (.bearer
        { sigValid := true
          claims :=
            { sub := some "u1", email := none, scope := none,
              exp := some 5, iat := some 1 } }) 10 "arn" =
      .error .Unauthorized :=
  C8_expired_token_unauthorized.1 _ 10 "arn" 5 rfl (by decide)

/-- C9: a token whose signature verifies and whose exp claim (if present)
lies in the future, but which carries no sub, email or scope claim, is
accepted: the policy carries principal "unknown" and a context whose
userId, email and scope are all the empty string. -/
theorem C9_missing_sub_accepted :
    ∀ (t : Jwt) (now : Int) (arn : String),
      t.sigValid = true → t.claims.sub = none → t.claims.email = none →
      t.claims.scope = none → (∀ e, t.claims.exp = some e → now < e) →
      authHandler (.bearer t) now arn =
        .ok
          { principalId := "unknown", effect := "Allow", resource := arn,
            context := some { userId := "", email := "", scope := "" } } := by
  intro t now arn hsig hsub hemail hscope hexp
  cases hx : t.claims.exp with
  | none =>
    simp [authHandler, jwtDecode, generatePolicy, hsig, hx, hsub, hemail,
      hscope]
  | some e =>
    have hlt := hexp e hx
    simp [authHandler, jwtDecode, generatePolicy, hsig, hx, hsub, hemail,
      hscope, not_le.mpr hlt]

/-- C9 witness: a concrete valid-signature token with no sub, email,
scope or exp claims is accepted with principal "unknown" and empty-string
context fields. -/
theorem C9_missing_sub_accepted_witness :
    authHandler
      (.bearer
        { sigValid := true
          claims :=
            { sub := none, email := none, scope := none,
              exp := none, iat := some 1 } }) 0 "arn" =
      .ok
        { principalId := "unknown", effect := "Allow", resource := "arn",
          context := some { userId := "", email := "", scope := "" } } :=
  C9_missing_sub_accepted _ 0 "arn" rfl rfl rfl rfl
    (fun _ h => Option.noConfusion h)

/-! ### Theorems about the ingest handler -/

/-- C5: a request body that parses as a document but lacks the userId
field or the data field is answered with the 400 MissingField response,
and no put_item call is issued. -/
theorem C5_missing_field_no_write :
    ∀ (auth : Option AuthCtx) (doc : Doc) (itemId : String) (ts : Int)
      (createdAt : String) (putErr : Option String),
      docGet doc "userId" = none ∨ docGet doc "data" = none →
      ingestHandler { authorizer := auth, body := some (.ok doc) } itemId
          ts createdAt putErr =
        { response := createResponse 400
            [("error", .jstr "Missing required fields: userId, data")]
          puts := [] } := by
  intro auth doc itemId ts createdAt putErr h
  have hmiss :
      ((docGet doc "userId").isNone || (docGet doc "data").isNone) = true := by
    rcases h with h | h <;> simp [h]
  simp [ingestHandler, hmiss]

/-- C5 witness: a concrete body carrying only a data field is rejected
with the 400 MissingField response and an empty put list. -/
theorem C5_missing_field_no_write_witness :
    ingestHandler
        { authorizer := none, body := some (.ok [("data", .jnull)]) }
        "id0" 0 "t0" none =
      { response := createResponse 400
          [("error", .jstr "Missing required fields: userId, data")]
        puts := [] } :=
  C5_missing_field_no_write none [("data", .jnull)] "id0" 0 "t0" none
    (Or.inl rfl)

/-- C7: a parsable body containing userId and data yields exactly one
put_item call, whose item keeps the request-supplied userId separate from
the authenticated identity fields (authenticatedUser, userEmail taken
from the authorizer context) and carries the generated identifier and
timestamp; the 200 acknowledgment returns exactly that identifier and
timestamp. -/
theorem C7_valid_ingest_single_write :
    ∀ (auth : Option AuthCtx) (doc : Doc) (itemId : String) (ts : Int)
      (createdAt : String) (u d : JVal),
      docGet doc "userId" = some u → docGet doc "data" = some d →
      ingestHandler { authorizer := auth, body := some (.ok doc) } itemId
          ts createdAt none =
        { response := createResponse 200
            [("message", .jstr "Data ingested successfully"),
             ("id", .jstr itemId), ("timestamp", .jnum ts)]
          puts :=
            [{ id := itemId
               timestamp := ts
               userId := u
               eventType := (docGet doc "eventType").getD (.jstr "unknown")
               data := d
               createdAt := createdAt
               authenticatedUser := (auth.bind AuthCtx.userId).getD "unknown"
               userEmail := (auth.bind AuthCtx.email).getD "" }] } := by
  intro auth doc itemId ts createdAt u d hu hd
  simp [ingestHandler, hu, hd]

/-- C7 witness: a concrete valid request from an authenticated caller
produces the 200 acknowledgment with the generated id and timestamp and a
single put of the assembled item. -/
theorem C7_valid_ingest_single_write_witness :
    ingestHandler
        { authorizer := some { userId := some "svc", email := some "s@x" }
          body := some (.ok [("userId", .jstr "u1"), ("data", .jobj [])]) }
        "id1" 42 "t1" none =
      { response := createResponse 200
          [("message", .jstr "Data ingested successfully"),
           ("id", .jstr "id1"), ("timestamp", .jnum 42)]
        puts :=
          [{ id := "id1"
             timestamp := 42
             userId := .jstr "u1"
             eventType := .jstr "unknown"
             data := .jobj []
             createdAt := "t1"
             authenticatedUser := "svc"
             userEmail := "s@x" }] } :=
  C7_valid_ingest_single_write
    (some { userId := some "svc", email := some "s@x" })
    [("userId", .jstr "u1"), ("data", .jobj [])] "id1" 42 "t1"
    (.jstr "u1") (.jobj []) rfl rfl

/-- C10: an event whose body key is absent is parsed as the empty
document, so the handler answers with the 400 MissingField response,
never with the 400 InvalidPayload parse error, and issues no put_item
call. -/
theorem C10_absent_body_missing_fields :
    ∀ (auth : Option AuthCtx) (itemId : String) (ts : Int)
      (createdAt : String) (putErr : Option String),
      ingestHandler { authorizer := auth, body := none } itemId ts
          createdAt putErr =
        { response := createResponse 400
            [("error", .jstr "Missing required fields: userId, data")]
          puts := [] } ∧
      (ingestHandler { authorizer := auth, body := none } itemId ts
          createdAt putErr).response ≠
        createResponse 400 [("error", .jstr "Invalid JSON format")] := by
  intro auth itemId ts createdAt putErr
  refine ⟨rfl, ?_⟩
  intro h
  have h1 :
      (ingestHandler { authorizer := auth, body := none } itemId ts
          createdAt putErr).response =
        createResponse 400
          [("error", .jstr "Missing required fields: userId, data")] := rfl
  rw [h1] at h
  have hbody := congrArg Resp.body h
  simp [createResponse] at hbody

/-! ### Theorems about the aggregator -/

/-- The per-user tally produced by process_items does not depend on the
incoming event-type tally. -/
theorem processItems_fst_indep :
    ∀ (items : List ScanItem) (u e1 e2 : Stats),
      (processItems items u e1).1 = (processItems items u e2).1 := by
  intro items
  induction items with
  | nil => intro u e1 e2; rfl
  | cons i rest ih =>
    intro u e1 e2
    simp only [processItems, List.foldl_cons]
    cases hp : pyTruthy i.userId <;> simp only [processItem, hp] <;>
      exact ih _ _ _

/-- Records with a falsy userId leave the per-user tally untouched: the
per-user output of process_items equals the one computed over the
truthy-userId records alone. -/
theorem processItems_fst_filter :
    ∀ (items : List ScanItem) (u e : Stats),
      (processItems items u e).1 =
        (processItems (items.filter fun i => pyTruthy i.userId) u e).1 := by
  intro items
  induction items with
  | nil => intro u e; rfl
  | cons i rest ih =>
    intro u e
    cases hp : pyTruthy i.userId with
    | true =>
      simp only [processItems, List.foldl_cons, List.filter_cons, hp,
        if_pos, processItem]
      exact ih _ _
    | false =>
      simp only [processItems, List.foldl_cons, List.filter_cons, hp,
        Bool.false_eq_true, if_false, processItem]
      calc (List.foldl processItem
              (u, statsBump e (i.eventType.getD "unknown")) rest).1
          = (processItems rest u
              (statsBump e (i.eventType.getD "unknown"))).1 := rfl
        _ = (processItems rest u e).1 := processItems_fst_indep rest u _ e
        _ = (processItems (rest.filter fun i => pyTruthy i.userId) u e).1 :=
            ih u e

/-- The running total of the scan fold counts exactly the records the
scan returns, whatever the starting accumulator. -/
theorem scanTable_fold_fst (s e : Int) :
    ∀ (pages : List (List ScanItem)) (n : Nat) (u ev : Stats),
      (pages.foldl (scanStep s e) (n, u, ev)).1 =
        n + (returnedItems pages s e).length := by
  intro pages
  induction pages with
  | nil => intro n u ev; simp [returnedItems]
  | cons p ps ih =>
    intro n u ev
    simp only [List.foldl_cons, scanStep]
    rw [ih]
    simp [returnedItems]
    omega

/-- C2: the total record count equals the number of records the scan
returns, so every returned record counts toward the total; the per-user
tally equals the tally over the truthy-subject records alone, so a
returned record whose subject is missing (absent or empty, both falsy) is
skipped by it while still counted in the total; and a record with no
eventType attribute is tallied under the "unknown" event type. -/
theorem C2_missing_subject_tally :
    (∀ (pages : List (List ScanItem)) (s e : Int),
      (scanTable pages s e).1 = (returnedItems pages s e).length) ∧
    (∀ (items : List ScanItem) (u ev : Stats),
      (processItems items u ev).1 =
        (processItems (items.filter fun i => pyTruthy i.userId) u ev).1) ∧
    (∀ (u ev : Stats) (i : ScanItem), pyTruthy i.userId = false →
      (processItem (u, ev) i).1 = u) ∧
    (∀ (u ev : Stats) (i : ScanItem), i.eventType = none →
      (processItem (u, ev) i).2 = statsBump ev "unknown") := by
  refine ⟨?_, processItems_fst_filter, ?_, ?_⟩
  · intro pages s e
    simpa using scanTable_fold_fst s e pages 0 [] []
  · intro u ev i h
    simp [processItem, h]
  · intro u ev i h
    simp [processItem, h]

/-- C2 witness: a record with the empty-string subject and no event type
is skipped by the per-user tally and tallied under "unknown". -/
theorem C2_missing_subject_tally_witness :
    pyTruthy (some "") = false ∧
    (processItem ([], []) { userId := some "", eventType := none, ts := 0 }).1
      = [] ∧
    (processItem ([], []) { userId := some "", eventType := none, ts := 0 }).2
      = statsBump [] "unknown" :=
  ⟨rfl,
   C2_missing_subject_tally.2.2.1 [] []
     { userId := some "", eventType := none, ts := 0 } rfl,
   C2_missing_subject_tally.2.2.2 [] []
     { userId := some "", eventType := none, ts := 0 } rfl⟩

/-- Dropping the out-of-window records of a page first does not change
what the scan filter returns for that page. -/
theorem filter_scanFilter_window (s e : Int) (l : List ScanItem) :
    ((l.filter fun i => decide (s ≤ i.ts) && decide (i.ts ≤ e)).filter
        (scanFilter s e)) = l.filter (scanFilter s e) := by
  rw [List.filter_filter]
  apply List.filter_congr
  intro i _
  cases hu : i.userId.isSome <;> by_cases h1 : s ≤ i.ts <;>
    by_cases h2 : i.ts ≤ e <;> simp [scanFilter, hu, h1, h2]

/-- C3: the window start is the window end minus 7 days of seconds; the
scan output over any store is unchanged when every record with a
timestamp strictly outside the closed window is removed first, so such
records contribute to no count; and no such record is among the records
the scan returns. -/
theorem C3_window_excludes_outside :
    (∀ endTs : Int, weeklyWindowStart endTs = endTs - 7 * 86400) ∧
    (∀ (pages : List (List ScanItem)) (endTs : Int),
      scanTable pages (weeklyWindowStart endTs) endTs =
        scanTable
          (pages.map fun page =>
            page.filter fun i =>
              decide (weeklyWindowStart endTs ≤ i.ts) &&
                decide (i.ts ≤ endTs))
          (weeklyWindowStart endTs) endTs) ∧
    (∀ (pages : List (List ScanItem)) (endTs : Int) (i : ScanItem),
      i.ts < weeklyWindowStart endTs ∨ endTs < i.ts →
      i ∉ returnedItems pages (weeklyWindowStart endTs) endTs) := by
  refine ⟨fun _ => rfl, ?_, ?_⟩
  · intro pages endTs
    simp only [scanTable, List.foldl_map]
    have hstep :
        (fun (acc : Nat × Stats × Stats) (page : List ScanItem) =>
            scanStep (weeklyWindowStart endTs) endTs acc
              (page.filter fun i =>
                decide (weeklyWindowStart endTs ≤ i.ts) &&
                  decide (i.ts ≤ endTs))) =
          scanStep (weeklyWindowStart endTs) endTs := by
      funext acc page
      unfold scanStep
      rw [filter_scanFilter_window]
    rw [hstep]
  · intro pages endTs i hout hmem
    simp only [returnedItems, List.mem_flatten, List.mem_map] at hmem
    obtain ⟨l, ⟨page, _, rfl⟩, hmem⟩ := hmem
    rw [List.mem_filter] at hmem
    have hf := hmem.2
    simp only [scanFilter, Bool.and_eq_true, decide_eq_true_eq] at hf
    rcases hout with h | h
    · exact absurd hf.1.2 (not_le.mpr h)
    · exact absurd hf.2 (not_le.mpr h)

/-- C3 witness: a record stamped after the window end is not among the
records the scan returns over a store holding just that record. -/
theorem C3_window_excludes_outside_witness :
    { userId := some "u", eventType := none, ts := 10 : ScanItem } ∉
      returnedItems [[{ userId := some "u", eventType := none, ts := 10 }]]
        (weeklyWindowStart 0) 0 :=
  C3_window_excludes_outside.2.2
    [[{ userId := some "u", eventType := none, ts := 10 }]] 0
    { userId := some "u", eventType := none, ts := 10 }
    (Or.inr (by decide))

/-- Membership in a stable descending insertion. -/
theorem mem_insertByCountDesc {x y : String × Nat} :
    ∀ {l : List (String × Nat)},
      y ∈ insertByCountDesc x l ↔ y = x ∨ y ∈ l := by
  intro l
  induction l with
  | nil => simp [insertByCountDesc]
  | cons z zs ih =>
    by_cases h : z.2 ≤ x.2
    · simp [insertByCountDesc, h]
    · simp only [insertByCountDesc, if_neg h, List.mem_cons, ih]
      tauto

/-- Stable descending insertion preserves the nonincreasing-count order. -/
theorem pairwise_insertByCountDesc (x : String × Nat) :
    ∀ {l : List (String × Nat)},
      l.Pairwise (fun p q => q.2 ≤ p.2) →
      (insertByCountDesc x l).Pairwise (fun p q => q.2 ≤ p.2) := by
  intro l
  induction l with
  | nil => intro _; simp [insertByCountDesc]
  | cons z zs ih =>
    intro h
    rw [List.pairwise_cons] at h
    by_cases hz : z.2 ≤ x.2
    · simp only [insertByCountDesc, if_pos hz]
      rw [List.pairwise_cons]
      refine ⟨?_, List.pairwise_cons.mpr h⟩
      intro y hy
      rcases List.mem_cons.mp hy with rfl | hy
      · exact hz
      · exact le_trans (h.1 y hy) hz
    · simp only [insertByCountDesc, if_neg hz]
      rw [List.pairwise_cons]
      refine ⟨?_, ih h.2⟩
      intro y hy
      rcases mem_insertByCountDesc.mp hy with rfl | hy
      · omega
      · exact h.1 y hy

/-- The stable descending sort orders entries by nonincreasing count. -/
theorem sortByCountDesc_pairwise :
    ∀ l : List (String × Nat),
      (sortByCountDesc l).Pairwise (fun p q => q.2 ≤ p.2) := by
  intro l
  induction l with
  | nil => simp [sortByCountDesc]
  | cons x xs ih => exact pairwise_insertByCountDesc x ih

/-- Filtering to one count value commutes with the stable insertion: the
inserted entry lands before every equal-count entry already present. -/
theorem filter_insertByCountDesc (x : String × Nat) (c : Nat) :
    ∀ l : List (String × Nat),
      (insertByCountDesc x l).filter (fun p => p.2 == c) =
        (x :: l).filter (fun p => p.2 == c) := by
  intro l
  induction l with
  | nil => rfl
  | cons z zs ih =>
    by_cases hz : z.2 ≤ x.2
    · simp [insertByCountDesc, hz]
    · simp only [insertByCountDesc, if_neg hz]
      by_cases hxc : x.2 = c
      · have hzc : ¬z.2 = c := by omega
        simp [List.filter_cons, hxc, hzc, ih]
      · simp [List.filter_cons, hxc, ih]

/-- The stable descending sort keeps entries of equal count in their
input order: filtering to any one count value returns them unchanged. -/
theorem filter_sortByCountDesc (c : Nat) :
    ∀ l : List (String × Nat),
      (sortByCountDesc l).filter (fun p => p.2 == c) =
        l.filter (fun p => p.2 == c) := by
  intro l
  induction l with
  | nil => rfl
  | cons x xs ih =>
    show (insertByCountDesc x (sortByCountDesc xs)).filter
        (fun p => p.2 == c) = _
    rw [filter_insertByCountDesc]
    by_cases hxc : x.2 = c <;> simp [List.filter_cons, hxc, ih]

/-- C4: the top-N ranking returns at most limit entries, in nonincreasing
count order; entries of equal count keep the accumulation order of the
counter dictionary (the sort is stable, with no secondary key); and the
ranking is exactly the first limit entries of that stable sort. -/
theorem C4_top_n_ranking :
    (∀ (stats : Stats) (limit : Nat),
      (getTopItems stats limit).length ≤ limit) ∧
    (∀ (stats : Stats) (limit : Nat),
      (getTopItems stats limit).Pairwise (fun p q => q.2 ≤ p.2)) ∧
    (∀ (stats : Stats) (c : Nat),
      (sortByCountDesc stats).filter (fun p => p.2 == c) =
        stats.filter (fun p => p.2 == c)) ∧
    (∀ (stats : Stats) (limit : Nat),
      getTopItems stats limit = (sortByCountDesc stats).take limit) := by
  refine ⟨?_, ?_, fun stats c => filter_sortByCountDesc c stats,
    fun _ _ => rfl⟩
  · intro stats limit
    simp only [getTopItems, List.length_take]
    omega
  · intro stats limit
    exact (sortByCountDesc_pairwise stats).sublist (List.take_sublist _ _)

/-- C6: a scan failure makes the run report status 500 with no put_object
call attempted at all, and an upload failure makes the run report status
500 with nothing persisted to the blob store; in neither case does a
partial report survive. -/
theorem C6_failure_no_partial_output :
    (∀ (endTs : Int) (dateStr : String) (s3ok : Bool),
      weeklySummaryHandler endTs dateStr (.error ()) s3ok =
        { statusCode := 500, s3Attempts := [], s3Persisted := [] }) ∧
    (∀ (endTs : Int) (dateStr : String) (pages : List (List ScanItem)),
      (weeklySummaryHandler endTs dateStr (.ok pages) false).statusCode
          = 500 ∧
      (weeklySummaryHandler endTs dateStr (.ok pages) false).s3Persisted
          = []) := by
  constructor
  · intro _ _ _
    rfl
  · intro endTs dateStr pages
    exact ⟨rfl, rfl⟩

/-- C10 witness: a concrete event with no body key is answered with the
400 MissingField response, which is not the InvalidPayload parse
response, and no put is issued. -/
theorem C10_absent_body_missing_fields_witness :
    ingestHandler { authorizer := none, body := none } "id2" 7 "t2" none =
      { response := createResponse 400
          [("error", .jstr "Missing required fields: userId, data")]
        puts := [] } ∧
    (ingestHandler { authorizer := none, body := none } "id2" 7 "t2"
        none).response ≠
      createResponse 400 [("error", .jstr "Invalid JSON format")] :=
  C10_absent_body_missing_fields none "id2" 7 "t2" none
